import Mathlib

/-!
Verification development for the `code-runner` service: a shallow embedding of
its data model and operations (from `src/types.rs`, `src/runner.rs`,
`src/main.rs`), together with theorems settling the specification claims.

Conventions of the embedding:
* byte strings are `List Nat`;
* machine integers are `Nat`/`Int` with explicit `% 2 ^ w` where overflow
  matters (`u32` cast on Put length, `u64` wall-time product, `u128 → u64`
  runtime cast);
* fallible operations return `Except`;
* the outcomes of OS interactions (spawn, wait, rusage and proc-status
  collection, workspace file I/O) are inputs to the embedded functions,
  packaged in `SpawnWorld` / `StepWorld` records, so every code path of the
  source is reachable in the model.
-/

namespace CodeRunner

/-- From `src/types.rs`: `Limit` with three optional `u64` fields. -/
structure Limit where
  memory : Option Nat
  time_limit : Option Nat
  walltime_limit : Option Nat
  deriving Repr, DecidableEq

/-- From `src/types.rs`: `RunStatus`.  `SystemError` and `RuntimeError` carry a
reason string. -/
inductive RunStatus where
  | success
  | timeLimitExceeded
  | systemError (reason : String)
  | runtimeError (reason : String)
  deriving Repr, DecidableEq

/-- From `src/types.rs`: `RunOutput`.  `runtime` is a `u128` millisecond count,
`memory_usage` an `i64`, `exit_code` an optional `i32`. -/
structure RunOutput where
  stdout : List Nat
  stderr : List Nat
  runtime : Nat
  memory_usage : Int
  status : RunStatus
  exit_code : Option Int
  deriving Repr, DecidableEq

/-- From `src/types.rs`: `RunOutput::error(reason, stderr, stdout)` — folds a
failure into an outcome with zero accounting, `SystemError(reason)` status and
no exit code.  Note the diagnostic `reason` goes into the status variant, not
into `stderr`; absent stderr/stdout default to empty. -/
def RunOutput.error (reason : String) (stderr stdout : Option (List Nat)) :
    RunOutput :=
  { stdout := stdout.getD []
    stderr := stderr.getD []
    runtime := 0
    memory_usage := 0
    status := RunStatus.systemError reason
    exit_code := none }

/-- Rusage snapshot delivered by the wait, already converted to milliseconds
(the source calls `as_millis()` on the two `Duration`s). -/
structure Rusage where
  user_time_ms : Nat
  system_time_ms : Nat
  deriving Repr, DecidableEq

/-- `/proc/<pid>/status` snapshot: `vmrss` is the `VmRSS` figure, which the
kernel reports in kilobytes; the source stores it without unit conversion. -/
structure ProcPidStatus where
  vmrss : Nat
  deriving Repr, DecidableEq

/-- The observable result of `wait_with_output`: exit status code, the
library's textual reason, the two optional resource snapshots and the captured
output streams. -/
structure WaitOutput where
  code : Int
  reason : String
  rusage : Option Rusage
  proc_pid_status : Option ProcPidStatus
  stdout : List Nat
  stderr : List Nat
  deriving Repr, DecidableEq

/-- The OS-dependent outcomes of one `execute_program` call: whether `spawn`
succeeds, whether `proc.stdin.take()` yields a handle, whether the stdin write
succeeds (its failure is merely logged), and the wait result (`none` models a
failed `wait_with_output`). -/
structure SpawnWorld where
  spawnOk : Bool
  stdinHandle : Bool
  stdinWriteOk : Bool
  waitResult : Option WaitOutput
  deriving Repr, DecidableEq

/-- CPU and address-space rlimits currently applied to the container.  The
source mutates `self.container` with `setrlimit` and never resets it, so these
persist across calls of `execute_program`. -/
structure RlimitSet where
  cpu : Option Nat
  rlimitAs : Option Nat
  deriving Repr, DecidableEq

/-- A container fresh out of `Runner::new` has no rlimits applied. -/
def freshRlimits : RlimitSet := { cpu := none, rlimitAs := none }

/-- The command built in `execute_program` lines 88–99: program, argv, working
directory `/box`, `PATH=/bin`, three piped stdio streams, and the optional
wall-clock timeout. -/
structure BuiltCommand where
  program : String
  args : List String
  current_dir : String
  env_path : String
  stdin_piped : Bool
  stdout_piped : Bool
  stderr_piped : Bool
  wait_timeout : Option Nat
  deriving Repr, DecidableEq

/-- Limit application, `src/runner.rs` lines 71–86: when a `Limit` is present,
`RLIMIT_CPU` is set from `time_limit` and `RLIMIT_AS` from `memory` (each only
when present) on the persistent container state, and the wall timeout is its
`walltime_limit`; when the whole `Limit` is absent nothing is applied and
there is no wall timeout. -/
def applyLimits (st : RlimitSet) : Option Limit → RlimitSet × Option Nat
  | some l =>
      let st1 := match l.time_limit with
        | some t => { st with cpu := some t }
        | none => st
      let st2 := match l.memory with
        | some m => { st1 with rlimitAs := some m }
        | none => st1
      (st2, l.walltime_limit)
  | none => (st, none)

/-- Exit-status classification, `src/runner.rs` lines 155–160: code 0 is
`Success`, 137 or 152 is `TimeLimitExceeded`, anything else is `RuntimeError`
carrying the library's reason string. -/
def classifyExit (code : Int) (reason : String) : RunStatus :=
  if code = 0 then RunStatus.success
  else if code = 137 ∨ code = 152 then RunStatus.timeLimitExceeded
  else RunStatus.runtimeError reason

/-- `u64 → i64` cast (`vmrss as i64`). -/
def i64ofU64 (n : Nat) : Int :=
  if n % 2 ^ 64 < 2 ^ 63 then Int.ofNat (n % 2 ^ 64)
  else Int.ofNat (n % 2 ^ 64) - 2 ^ 64

/-- `i64 → u64` cast (`output.memory_usage as u64` in `main.rs`). -/
def u64ofI64 (i : Int) : Nat := (i.emod (2 ^ 64)).toNat

/-- `Runner::execute_program`, `src/runner.rs` lines 64–170.  Returns the
container rlimit state after the call, the command that was built, and the
`RunOutput`.  Every failure path is folded into `RunOutput.error`: spawn
failure, a missing stdin handle when stdin bytes were supplied, wait failure,
missing rusage, missing proc status.  A failed stdin write is only logged.
Note the two snapshot-availability checks happen before the exit-code
classification. -/
def execute_program (st : RlimitSet) (program : String) (args : List String)
    (limit : Option Limit) (stdin : Option (List Nat)) (w : SpawnWorld) :
    RlimitSet × BuiltCommand × RunOutput :=
  let applied := applyLimits st limit
  let cmd : BuiltCommand :=
    { program := program
      args := args
      current_dir := "/box"
      env_path := "/bin"
      stdin_piped := true
      stdout_piped := true
      stderr_piped := true
      wait_timeout := applied.2 }
  let out : RunOutput :=
    if !w.spawnOk then
      RunOutput.error "Failed to spawn process" none none
    else if stdin.isSome && !w.stdinHandle then
      RunOutput.error "Failed to take stdin" none none
    else
      match w.waitResult with
      | none => RunOutput.error "Failed to wait for process" none none
      | some o =>
        match o.rusage with
        | none =>
            RunOutput.error "Failed to get resource usage"
              (some o.stderr) (some o.stdout)
        | some r =>
          match o.proc_pid_status with
          | none =>
              RunOutput.error "Failed to get process resource usage"
                (some o.stderr) (some o.stdout)
          | some p =>
              { stdout := o.stdout
                stderr := o.stderr
                runtime := r.user_time_ms + r.system_time_ms
                memory_usage := i64ofU64 p.vmrss
                status := classifyExit o.code o.reason
                exit_code := some o.code }
  (applied.1, cmd, out)

/-- `Runner::put_file` opens `format!("{}/{}", self.path, file_path)`
(`src/runner.rs` line 57): plain concatenation, no rejection or
sanitization of the client-supplied name. -/
def put_file_target (rootPath file_path : String) : String :=
  rootPath ++ "/" ++ file_path

/-- `Runner::get_file` opens `format!("{}/{}", self.path, file_path)`
(`src/runner.rs` line 173): same unsanitized concatenation. -/
def get_file_target (rootPath file_path : String) : String :=
  rootPath ++ "/" ++ file_path

/-- Split a character list at `/` separators. -/
def splitSlashAux : List Char → List Char → List (List Char)
  | [], acc => [acc.reverse]
  | c :: cs, acc =>
      if c = '/' then acc.reverse :: splitSlashAux cs []
      else splitSlashAux cs (c :: acc)

/-- The components of a POSIX path, empty segments kept for now. -/
def pathComponents (p : String) : List (List Char) :=
  splitSlashAux p.toList []

/-- POSIX-style lexical normalization: drop empty and `.` components, let
`..` pop the previous component. -/
def normalizeComponents (cs : List (List Char)) : List (List Char) :=
  cs.foldl
    (fun acc c =>
      if c = [] ∨ c = ['.'] then acc
      else if c = ['.', '.'] then acc.dropLast
      else acc ++ [c])
    []

/-- Whether the lexical resolution of `full` stays inside the directory
`root`: the normalized components of `root` must be an initial segment of
those of `full`. -/
def resolvesUnder (root full : String) : Bool :=
  (normalizeComponents (pathComponents root)).isPrefixOf
    (normalizeComponents (pathComponents full))

/-- Decidable equality for `Except`, used to evaluate the fallible workspace
operations on concrete inputs. -/
instance {ε α : Type} [DecidableEq ε] [DecidableEq α] :
    DecidableEq (Except ε α) := fun a b =>
  match a, b with
  | Except.ok x, Except.ok y =>
      if h : x = y then isTrue (h ▸ rfl)
      else isFalse (fun he => h (Except.ok.inj he))
  | Except.error e, Except.error f =>
      if h : e = f then isTrue (h ▸ rfl)
      else isFalse (fun he => h (Except.error.inj he))
  | Except.ok _, Except.error _ => isFalse (fun h => Except.noConfusion h)
  | Except.error _, Except.ok _ => isFalse (fun h => Except.noConfusion h)

/-- Error kinds of `std::io::Error` relevant here. -/
inductive IoErrKind where
  | notFound
  | other
  deriving Repr, DecidableEq

/-- Semantics of `std::fs::remove_dir_all` over the one bit of filesystem
state that matters (does the directory exist?): removing an existing tree
succeeds and leaves it absent; removing a missing path returns a `NotFound`
error (Rust's documented behaviour — it is not idempotent).  Returns the
call's result and the new state. -/
def remove_dir_all (dirExists : Bool) : Except IoErrKind Unit × Bool :=
  if dirExists then (Except.ok (), false)
  else (Except.error IoErrKind.notFound, dirExists)

/-- `Runner::cleanup`, `src/runner.rs` lines 180–183: simply
`std::fs::remove_dir_all(&self.path)?`. -/
def Runner.cleanup (dirExists : Bool) : Except IoErrKind Unit × Bool :=
  remove_dir_all dirExists

/-! ### The session loop of `main.rs` -/

/-- The `limits` message of a `Run` request: two `u64` fields. -/
structure ReqLimits where
  max_memory : Nat
  max_runtime : Nat
  deriving Repr, DecidableEq

/-- A decoded command payload (the `command_request::Command` oneof). -/
inductive Command where
  | put (filename : String) (content : List Nat)
  | run (command : String) (limits : Option ReqLimits) (input : Option (List Nat))
  | get (filename : String)
  deriving Repr, DecidableEq

/-- Limit derivation in the `Run` arm, `src/main.rs` lines 114–122: when the
request carries limits, all three `Limit` fields are populated, with
`walltime_limit = max_runtime * 2` computed in `u64` (hence the `% 2 ^ 64`);
otherwise no `Limit` at all. -/
def deriveLimit : Option ReqLimits → Option Limit
  | some l =>
      some
        { memory := some l.max_memory
          time_limit := some l.max_runtime
          walltime_limit := some (l.max_runtime * 2 % 2 ^ 64) }
  | none => none

/-- The program and argv the `Run` arm passes to `execute_program`
(`src/main.rs` lines 124–129): note the program path is `/usr/bin/sh`. -/
def runCommandArgs (c : String) : String × List String :=
  ("/usr/bin/sh", ["-c", c])

/-- A gRPC `Status` as far as the model needs it: a kind and a message. -/
structure WireStatus where
  kind : String
  message : String
  deriving Repr, DecidableEq

/-- The wire `RunCodeResponse`: proto enum values Success = 0,
TimeLimitExceeded = 1, RuntimeError = 2, SystemError = 3; `runtime` is the
`u128` millisecond count cast to `u64`, `memory` the `i64` cast to `u64`. -/
structure RunCodeResponse where
  stdout : List Nat
  stderr : List Nat
  status : Nat
  runtime : Nat
  memory : Nat
  exit_code : Option Int
  deriving Repr, DecidableEq

/-- Building the wire `RunCodeResponse` from a `RunOutput`, `src/main.rs`
lines 131–155.  The reason string carried by `SystemError` / `RuntimeError`
is dropped here: only the numeric enum value crosses the wire. -/
def toWire (o : RunOutput) : RunCodeResponse :=
  { stdout := o.stdout
    stderr := o.stderr
    status :=
      match o.status with
      | RunStatus.success => 0
      | RunStatus.timeLimitExceeded => 1
      | RunStatus.systemError _ => 3
      | RunStatus.runtimeError _ => 2
    runtime := o.runtime % 2 ^ 64
    memory := u64ofI64 o.memory_usage
    exit_code := o.exit_code }

/-- One successful response payload (the `command_response::Response` oneof). -/
inductive Resp where
  | put (length : Nat)
  | run (r : RunCodeResponse)
  | get (content : List Nat)
  deriving Repr, DecidableEq

/-- One item sent into the outbound channel: `Ok(CommandResponse)` or a
framework-level `Err(Status)`. -/
inductive TxItem where
  | ok (r : Resp)
  | err (st : WireStatus)
  deriving Repr, DecidableEq

/-- The environment-determined outcomes of one command dispatch: the result
of the workspace file write for `Put`, of the file read for `Get`, and the
OS world for `Run`. -/
structure StepWorld where
  putResult : Except String Unit
  getResult : Except String (List Nat)
  runWorld : SpawnWorld
  deriving Repr

/-- Per-command dispatch, `src/main.rs` lines 83–188.  Produces the single
channel item the arm sends and the container rlimit state after the command.
`Put` reports `content.len() as u32` (hence `% 2 ^ 32`); `Put`/`Get` failures
become framework-level internal error statuses; the `Run` arm always sends an
`Ok` response built by `toWire`. -/
def dispatch (rl : RlimitSet) (c : Command) (io : StepWorld) :
    TxItem × RlimitSet :=
  match c with
  | Command.put _ content =>
      match io.putResult with
      | Except.ok _ =>
          (TxItem.ok (Resp.put (content.length % 2 ^ 32)), rl)
      | Except.error e =>
          (TxItem.err { kind := "internal", message := "Failed to put file: " ++ e }, rl)
  | Command.run s lims inp =>
      let pa := runCommandArgs s
      let r := execute_program rl pa.1 pa.2 (deriveLimit lims) inp io.runWorld
      (TxItem.ok (Resp.run (toWire r.2.2)), r.1)
  | Command.get _ =>
      match io.getResult with
      | Except.ok content => (TxItem.ok (Resp.get content), rl)
      | Except.error e =>
          (TxItem.err { kind := "internal", message := "Failed to get file: " ++ e }, rl)

/-- One event on the inbound stream: either a decoded `CommandRequest`
(whose `command` oneof may be absent) together with the environment outcomes
for processing it, or a transport error, flagged as broken-pipe or not and
carrying its message. -/
inductive InEvent where
  | req (c : Option Command) (io : StepWorld)
  | terr (brokenPipe : Bool) (message : String)
  deriving Repr

/-- Result of running the session loop body: the items actually sent into
the channel, and whether the task panicked (a panic skips everything after
the loop, including cleanup). -/
structure LoopResult where
  sent : List TxItem
  panicked : Bool
  deriving Repr, DecidableEq

/-- The `while let` loop of `start_session`, `src/main.rs` lines 73–204,
with `txAlive` saying whether the response channel still has a receiver.
A request with no `command` payload hits
`.ok_or_else(invalid_argument).expect(...)` and panics the task; every
`tx.send(...).unwrap()` panics when the channel is closed; a broken-pipe
transport error breaks out of the loop; any other transport error is
forwarded as an `Err` status (and a failed forward breaks out). -/
def sessionLoop (txAlive : Bool) (rl : RlimitSet) :
    List InEvent → LoopResult
  | [] => { sent := [], panicked := false }
  | InEvent.req none _ :: _ => { sent := [], panicked := true }
  | InEvent.req (some c) io :: rest =>
      let d := dispatch rl c io
      if txAlive then
        let r := sessionLoop txAlive d.2 rest
        { sent := d.1 :: r.sent, panicked := r.panicked }
      else { sent := [], panicked := true }
  | InEvent.terr bp msg :: rest =>
      if bp then { sent := [], panicked := false }
      else if txAlive then
        let r := sessionLoop txAlive rl rest
        { sent := TxItem.err { kind := "transport", message := msg } :: r.sent
          panicked := r.panicked }
      else { sent := [], panicked := false }

/-- Observable outcome of a whole session task: the items sent and how many
times `runner.cleanup()` was invoked.  The cleanup call after the loop
(`src/main.rs` lines 207–209) runs exactly once when the loop exits
normally, and not at all when the task panicked. -/
structure SessionOutcome where
  sent : List TxItem
  cleanupCalls : Nat
  deriving Repr, DecidableEq

/-- A full session task from `start_session`: the workspace is created
(`Runner::new`), the loop runs over the inbound events, then cleanup is
attempted (its own error only logged) — unless a panic aborted the task. -/
def sessionRun (txAlive : Bool) (events : List InEvent) : SessionOutcome :=
  let r := sessionLoop txAlive freshRlimits events
  { sent := r.sent, cleanupCalls := if r.panicked then 0 else 1 }

/-! ### Shared concrete worlds for witnesses and counterexamples -/

/-- A spawn world where every OS interaction succeeds: the child exits 0 with
empty output, zero CPU accounting and zero resident set. -/
def okSpawnWorld : SpawnWorld :=
  { spawnOk := true
    stdinHandle := true
    stdinWriteOk := true
    waitResult := some
      { code := 0
        reason := ""
        rusage := some { user_time_ms := 0, system_time_ms := 0 }
        proc_pid_status := some { vmrss := 0 }
        stdout := []
        stderr := [] } }

/-- A step world where workspace I/O succeeds and runs behave as
`okSpawnWorld`. -/
def okStepWorld : StepWorld :=
  { putResult := Except.ok ()
    getResult := Except.ok []
    runWorld := okSpawnWorld }

/-! ### Claim theorems -/

/-- Claim C1, counterexample.  The claim's first-match table puts
`exit_code == 0 → Success` before the snapshot-availability check, so at a
wait result with exit code 0 but no rusage snapshot it classifies `Success`.
The code checks snapshot availability first and returns `SystemError` there,
so the claim (and its `status = Success` iff `exit code = 0` reading) is
false at this input. -/
theorem C1_counterexample :
    (execute_program freshRlimits "/usr/bin/sh" ["-c", "true"] none none
        { spawnOk := true, stdinHandle := true, stdinWriteOk := true
          waitResult := some
            { code := 0, reason := "", rusage := none, proc_pid_status := none
              stdout := [], stderr := [] } }).2.2.status
      = RunStatus.systemError "Failed to get resource usage"
    ∧ RunStatus.systemError "Failed to get resource usage" ≠ RunStatus.success := by
  decide

/-- Claim C1, amended.  For every run whose child was spawned and waited on
successfully, the status is classified by the first-match table with the
availability checks first: `SystemError` if the rusage snapshot is missing,
else `SystemError` if the proc-status snapshot is missing, else `Success`
iff the exit code is 0, `TimeLimitExceeded` iff it is 137 or 152, and
`RuntimeError` otherwise — the latter three captured by `classifyExit`. -/
theorem C1_classification (st : RlimitSet) (program : String)
    (args : List String) (limit : Option Limit) (stdin : Option (List Nat))
    (o : WaitOutput) (b : Bool) :
    (execute_program st program args limit stdin
        { spawnOk := true, stdinHandle := true, stdinWriteOk := b
          waitResult := some o }).2.2.status
      = (if o.rusage.isNone then
           RunStatus.systemError "Failed to get resource usage"
         else if o.proc_pid_status.isNone then
           RunStatus.systemError "Failed to get process resource usage"
         else classifyExit o.code o.reason)
    ∧ (∀ code reason, classifyExit code reason
        = (if code = 0 then RunStatus.success
           else if code = 137 ∨ code = 152 then RunStatus.timeLimitExceeded
           else RunStatus.runtimeError reason)) := by
  constructor
  · rcases o with ⟨code, reason, ru, ps, sout, serr⟩
    cases ru <;> cases ps <;> cases stdin <;>
      simp [execute_program, RunOutput.error, classifyExit]
  · intro code reason
    rfl

/-- Claim C2, counterexample.  On a spawn failure the outcome is
`SystemError` with `exit_code = none`, but the diagnostic message is NOT in
`stderr`: the outcome's `stderr` is empty (the reason lives in the
`SystemError` variant, and the wire response drops it), so "a diagnostic
message in stderr" is false at this input. -/
theorem C2_counterexample :
    (execute_program freshRlimits "/usr/bin/sh" ["-c", "true"] none none
        { spawnOk := false, stdinHandle := true, stdinWriteOk := true
          waitResult := none }).2.2
      = { stdout := [], stderr := [], runtime := 0, memory_usage := 0
          status := RunStatus.systemError "Failed to spawn process"
          exit_code := none }
    ∧ (toWire (execute_program freshRlimits "/usr/bin/sh" ["-c", "true"] none
        none
        { spawnOk := false, stdinHandle := true, stdinWriteOk := true
          waitResult := none }).2.2).stderr = [] := by
  decide

/-- Claim C2, amended.  While the response channel is open, every Run
command makes the session emit exactly one item, an `Ok` Run response built
by `toWire` (never a framework-level error status); every internal failure
is folded by `RunOutput.error` into an outcome with `status = SystemError`,
`exit_code` absent, zero accounting and `stderr` holding only captured child
output (empty for spawn/stdin/wait failures) — the diagnostic is carried in
the `SystemError` reason, which the wire response maps to enum value 3,
dropping the message. -/
theorem C2_run_response :
    (∀ (rl : RlimitSet) (s : String) (lims : Option ReqLimits)
        (inp : Option (List Nat)) (io : StepWorld),
      (dispatch rl (Command.run s lims inp) io).1
        = TxItem.ok (Resp.run (toWire
            (execute_program rl "/usr/bin/sh" ["-c", s] (deriveLimit lims)
              inp io.runWorld).2.2)))
    ∧ (∀ (rl : RlimitSet) (c : Command) (io : StepWorld)
        (rest : List InEvent),
      sessionLoop true rl (InEvent.req (some c) io :: rest)
        = { sent := (dispatch rl c io).1
              :: (sessionLoop true (dispatch rl c io).2 rest).sent
            panicked := (sessionLoop true (dispatch rl c io).2 rest).panicked })
    ∧ (∀ (reason : String) (se so : Option (List Nat)),
      RunOutput.error reason se so
        = { stdout := so.getD [], stderr := se.getD [], runtime := 0
            memory_usage := 0, status := RunStatus.systemError reason
            exit_code := none })
    ∧ (∀ (reason : String) (se so : Option (List Nat)),
      (toWire (RunOutput.error reason se so)).status = 3
        ∧ (toWire (RunOutput.error reason se so)).exit_code = none
        ∧ (toWire (RunOutput.error reason se so)).stderr = se.getD []) := by
  refine ⟨fun rl s lims inp io => rfl, fun rl c io rest => rfl,
    fun reason se so => rfl, fun reason se so => ⟨rfl, rfl, rfl⟩⟩

/-- Claim C3: the claim (filenames resolved strictly under the workspace
root, `..` rejected or sanitized) states the spec's intent, which §9 of the
spec itself records as a known latent defect of the source.  The code pastes
the client-supplied name into `<root>/<name>` unchecked, so the filename
`../x` makes both `put_file` and `get_file` access a path whose lexical
resolution leaves the workspace root. -/
theorem C3_path_escape :
    put_file_target "/var/tmp/code-runner/abc" "../x"
      = "/var/tmp/code-runner/abc/../x"
    ∧ get_file_target "/var/tmp/code-runner/abc" "../x"
      = "/var/tmp/code-runner/abc/../x"
    ∧ resolvesUnder "/var/tmp/code-runner/abc"
        (put_file_target "/var/tmp/code-runner/abc" "../x") = false
    ∧ resolvesUnder "/var/tmp/code-runner/abc"
        (put_file_target "/var/tmp/code-runner/abc" "hello.txt") = true := by
  decide

/-- Claim C4, counterexample.  Rlimits are set on the persistent container
and never reset, so they survive into later runs: after a run with
`max_memory = 134217728, max_runtime = 1`, a second run whose request has no
limits field still executes under `RLIMIT_CPU = 1` and
`RLIMIT_AS = 134217728` — not unbounded as the claim requires. -/
theorem C4_counterexample :
    (applyLimits
        (execute_program freshRlimits "/usr/bin/sh" ["-c", "a"]
          (deriveLimit (some { max_memory := 134217728, max_runtime := 1 }))
          none okSpawnWorld).1
        (deriveLimit none)).1
      = { cpu := some 1, rlimitAs := some 134217728 }
    ∧ ({ cpu := some 1, rlimitAs := some 134217728 } : RlimitSet).cpu
        ≠ none := by
  decide

/-- Claim C4, amended.  The per-run derivation is as claimed on a fresh
container: `RLIMIT_AS = max_memory`, `RLIMIT_CPU = max_runtime`,
wall timeout `= max_runtime * 2` computed in `u64` (wrapping modulo
`2 ^ 64`), and an absent limits field applies nothing and sets no wall
timeout.  However, an absent component leaves the container's previously
applied rlimit in effect rather than unbounded (the container is mutated
and never reset); only the wall timeout is genuinely per-run. -/
theorem C4_limit_derivation :
    (∀ l : ReqLimits, deriveLimit (some l)
      = some { memory := some l.max_memory, time_limit := some l.max_runtime
               walltime_limit := some (l.max_runtime * 2 % 2 ^ 64) })
    ∧ deriveLimit none = none
    ∧ (∀ (st : RlimitSet) (l : Limit), applyLimits st (some l)
        = ({ cpu := l.time_limit.or st.cpu
             rlimitAs := l.memory.or st.rlimitAs }, l.walltime_limit))
    ∧ (∀ st : RlimitSet, applyLimits st none = (st, none))
    ∧ (∀ l : ReqLimits, applyLimits freshRlimits (deriveLimit (some l))
        = ({ cpu := some l.max_runtime, rlimitAs := some l.max_memory },
           some (l.max_runtime * 2 % 2 ^ 64)))
    ∧ (∀ (st : RlimitSet) (p : String) (a : List String) (lim : Option Limit)
        (i : Option (List Nat)) (w : SpawnWorld),
      (execute_program st p a lim i w).2.1.wait_timeout
        = (applyLimits st lim).2) := by
  refine ⟨fun l => rfl, rfl, ?_, fun st => rfl, fun l => rfl,
    fun st p a lim i w => rfl⟩
  intro st l
  rcases l with ⟨m, t, wl⟩
  cases t <;> cases m <;> rfl

/-- Claim C5: the claim (cleanup exactly once on every terminal path) states
the spec's invariant, and the code violates it: a request whose command
payload is absent hits `.expect(...)`, the session task panics, and the
cleanup call after the loop never runs — the workspace directory is
orphaned, which §5 of the spec calls a correctness defect.  Evaluated here:
a session that processed one Put and then received a payload-less request
terminates with zero cleanup calls. -/
theorem C5_cleanup_skipped :
    sessionRun true
      [InEvent.req (some (Command.put "a.txt" [104, 105])) okStepWorld,
       InEvent.req none okStepWorld]
      = { sent := [TxItem.ok (Resp.put 2)], cleanupCalls := 0 } := by
  decide

/-- Claim C6: the claim (absent payload tag → InvalidArgument error response
and the session continues) is the spec's stated behaviour, and the code
contradicts it: the Run arm builds the InvalidArgument status with
`ok_or_else` but immediately `.expect(...)`s it, panicking the task.  No
response is emitted, the following command is never processed, and cleanup
is skipped. -/
theorem C6_missing_tag_panics :
    sessionRun true
      [InEvent.req none okStepWorld,
       InEvent.req (some (Command.put "b.txt" [1])) okStepWorld]
      = { sent := [], cleanupCalls := 0 } := by
  decide

/-- Claim C7, counterexample.  Workspace cleanup is not idempotent: the
first call removes the directory, and a second call — the directory now
absent — returns a `NotFound` error, not success
(`std::fs::remove_dir_all` fails on a missing path). -/
theorem C7_counterexample :
    Runner.cleanup ((Runner.cleanup true).2)
      = (Except.error IoErrKind.notFound, false)
    ∧ (Except.error IoErrKind.notFound : Except IoErrKind Unit)
        ≠ Except.ok () := by
  decide

/-- Claim C7, amended.  Calling cleanup on an existing workspace succeeds
and removes it; calling it again on the already-removed workspace returns a
`NotFound` error rather than success (the session loop merely logs that
error). -/
theorem C7_cleanup_second_call :
    Runner.cleanup true = (Except.ok (), false)
    ∧ Runner.cleanup false = (Except.error IoErrKind.notFound, false) := by
  decide

/-- Claim C8, counterexample.  The Run arm invokes the program path
`/usr/bin/sh`, not `/bin/sh` as claimed. -/
theorem C8_counterexample :
    (runCommandArgs "echo hi").1 = "/usr/bin/sh"
    ∧ "/usr/bin/sh" ≠ "/bin/sh"
    ∧ (execute_program freshRlimits (runCommandArgs "echo hi").1
        (runCommandArgs "echo hi").2 none none okSpawnWorld).2.1.program
      = "/usr/bin/sh" := by
  decide

/-- Claim C8, amended.  For every Run command the sandbox builds a command
with program path `/usr/bin/sh`, argv `["-c", shell_command]`, working
directory `/box`, `PATH=/bin`, all three stdio streams piped, and the wall
timeout taken from the applied limits. -/
theorem C8_built_command (rl : RlimitSet) (s : String)
    (lims : Option ReqLimits) (inp : Option (List Nat)) (w : SpawnWorld) :
    (execute_program rl (runCommandArgs s).1 (runCommandArgs s).2
        (deriveLimit lims) inp w).2.1
      = { program := "/usr/bin/sh", args := ["-c", s], current_dir := "/box"
          env_path := "/bin", stdin_piped := true, stdout_piped := true
          stderr_piped := true
          wait_timeout := (applyLimits rl (deriveLimit lims)).2 } := by
  rfl

/-- Claim C9: the runtime half of the claim holds (`runtime = user + system`
in milliseconds), but the memory half does not: `VmRSS` is read from
`/proc/<pid>/status`, which reports kilobytes, and the code stores it
without unit conversion — §9 of the spec records this and says implementers
MUST convert to bytes.  At a wait result with `VmRSS = 1` (i.e. 1 kB = 1024
bytes) and 3 ms user + 4 ms system time, the wire response carries
`runtime = 7` but `memory = 1`, not 1024. -/
theorem C9_rss_unit :
    toWire (execute_program freshRlimits "/usr/bin/sh" ["-c", "true"] none
        none
        { spawnOk := true, stdinHandle := true, stdinWriteOk := true
          waitResult := some
            { code := 0, reason := ""
              rusage := some { user_time_ms := 3, system_time_ms := 4 }
              proc_pid_status := some { vmrss := 1 }
              stdout := [], stderr := [] } }).2.2
      = { stdout := [], stderr := [], status := 0, runtime := 7, memory := 1
          exit_code := some 0 }
    ∧ (1 : Nat) ≠ 1 * 1024 := by
  decide

/-- Claim C10: for every successful Put, the reported length is the
content's byte length reduced modulo `2 ^ 32` (the `as u32` cast), and for
any length of at least `2 ^ 32` the reported value differs from the true
length — it silently wraps. -/
theorem C10_put_length (rl : RlimitSet) (f : String) (content : List Nat)
    (g : Except String (List Nat)) (w : SpawnWorld) (n : Nat) :
    (dispatch rl (Command.put f content)
        { putResult := Except.ok (), getResult := g, runWorld := w }).1
      = TxItem.ok (Resp.put (content.length % 2 ^ 32))
    ∧ (2 ^ 32 + n) % 2 ^ 32 ≠ 2 ^ 32 + n := by
  constructor
  · rfl
  · rw [Nat.add_mod_left]
    have h := Nat.mod_le n (2 ^ 32)
    omega

end CodeRunner
